import Mathlib

/-!
Shallow embedding of the trivia API backend (`backend/flaskr/__init__.py`).

The store is modelled as a `List Question` (resp. `List Category`); SQLAlchemy
queries become list operations; each request handler becomes a pure function
returning `Except ErrKind <response>` where `ErrKind` covers the three HTTP
failure kinds the app maps (400, 404, 422).  Randomness (`random.randrange`)
is modelled by an explicit pick parameter, and `request.args.get('page', 1,
type=int)` by an explicit `page : Int` argument (Flask coerces a malformed
value back to the default 1, so every reachable value is an integer).
-/

namespace Trivia

/-- Normalisation of one Python slice index: a negative index counts from the
end (clamped below at 0), a non-negative one is clamped above at the length. -/
def pyIndex (len : Nat) (i : Int) : Nat :=
  if i < 0 then ((len : Int) + i).toNat else min i.toNat len

/-- Python list slicing `xs[i:j]` (step 1): elements at positions
`pyIndex len i ≤ k < pyIndex len j`. -/
def pySlice (xs : List α) (i j : Int) : List α :=
  (xs.take (pyIndex xs.length j)).drop (pyIndex xs.length i)

/-- A question record, the five columns of the `Question` model. -/
structure Question where
  id : Nat
  question : String
  answer : String
  category : Nat
  difficulty : Nat
deriving DecidableEq, Repr

/-- A category record: `id` and `type` columns of the `Category` model. -/
structure Category where
  id : Nat
  type : String
deriving DecidableEq, Repr

/-- Modelled from the spec: `Question.format` lives in the absent `models.py`;
the spec says the formatted record is exactly the five fields
`{id, question, answer, category, difficulty}`, i.e. the record itself. -/
def Question.format (q : Question) : Question := q

/-- `QUESTIONS_PER_PAGE = 10`. -/
def QUESTIONS_PER_PAGE : Nat := 10

/-- `paginate_questions(request, selection)`: format every record of the
selection, then return the Python slice
`[(page-1)*10 : (page-1)*10 + 10]`. -/
def paginate_questions (page : Int) (selection : List Question) : List Question :=
  let start := (page - 1) * (QUESTIONS_PER_PAGE : Int)
  let stop := start + (QUESTIONS_PER_PAGE : Int)
  pySlice (selection.map Question.format) start stop

/-- `Question.query.order_by(Question.id).all()`: the store listed in
ascending id order. -/
def orderById (db : List Question) : List Question :=
  db.insertionSort (fun a b => a.id ≤ b.id)

/-- The three failure kinds the app raises via `abort`. -/
inductive ErrKind where
  | badRequest
  | notFound
  | unprocessable
deriving DecidableEq, Repr

/-- HTTP status attached to each failure kind by the error handlers. -/
def statusOf : ErrKind → Nat
  | .badRequest => 400
  | .notFound => 404
  | .unprocessable => 422

/-- Message text attached to each failure kind by the error handlers. -/
def messageOf : ErrKind → String
  | .badRequest => "bad request"
  | .notFound => "resource not found"
  | .unprocessable => "unprocessable"

/-- The uniform JSON error envelope produced by the three
`@app.errorhandler` functions. -/
structure ErrorBody where
  success : Bool
  error : Nat
  message : String
deriving DecidableEq, Repr

/-- The `jsonify` body of every error response: each handler emits
`{success: False, error: <status>, message: <text>}`. -/
def errorResponse (e : ErrKind) : ErrorBody :=
  { success := false, error := statusOf e, message := messageOf e }

/-- Success body of `GET /questions`. -/
structure QuestionsResponse where
  success : Bool
  questions : List Question
  total_questions : Nat
deriving DecidableEq, Repr

/-- `GET /questions` (`get_questions`): list all questions ordered by id,
paginate, 404 when the slice is empty, else the success body with the
unpaginated total count. -/
def get_questions (page : Int) (db : List Question) :
    Except ErrKind QuestionsResponse :=
  let selection := orderById db
  let current_questions := paginate_questions page selection
  if current_questions.length = 0 then
    .error .notFound
  else
    .ok { success := true, questions := current_questions,
          total_questions := db.length }

/-- Success body of `DELETE /questions/<id>`. -/
structure DeleteResponse where
  success : Bool
  deleted : Nat
  questions : List Question
  total_questions : Nat
deriving DecidableEq, Repr

/-- `DELETE /questions/<id>` (`delete_question`):
`filter(Question.id == question_id).one_or_none()` yields the one matching
record; with zero matches it yields `None` and `question.delete()` raises,
with several matches `one_or_none` raises; either exception is caught by the
broad `except BaseException` and mapped to 422.  On success the remaining
questions are re-listed ordered by id and paginated with the request's
`page` parameter. -/
def delete_question (page : Int) (db : List Question) (question_id : Nat) :
    Except ErrKind DeleteResponse :=
  match db.filter (fun q => q.id = question_id) with
  | [_] =>
      let remaining := db.filter (fun q => ¬ q.id = question_id)
      let selection := orderById remaining
      .ok { success := true, deleted := question_id,
            questions := paginate_questions page selection,
            total_questions := remaining.length }
  | _ => .error .unprocessable

/-- The JSON body of `POST /questions`: each field is `some v` when the key
is present in the body (`'question' in body`), `none` when absent. -/
structure CreateBody where
  question : Option String
  answer : Option String
  category : Option Nat
  difficulty : Option Nat
deriving DecidableEq, Repr

/-- Success body of `POST /questions`. -/
structure CreateResponse where
  success : Bool
  created : Nat
  questions : List Question
  total_questions : Nat
deriving DecidableEq, Repr

/-- Modelled from the spec: id assignment on `question.insert()` lives in the
absent `models.py`; the spec says ids are system-assigned, integer and
unique, so a fresh id strictly above every existing id is used. -/
def freshId (db : List Question) : Nat :=
  (db.map Question.id).foldr max 0 + 1

/-- `POST /questions` (`create_question`): 422 when any of the four keys is
missing from the body; otherwise insert a new record and answer with its id,
the paginated listing and the new total.  `insertOk` models whether the
`question.insert()` call inside the `try` succeeds; when it raises, the
broad catch maps to 422. -/
def create_question (insertOk : Bool) (page : Int) (body : CreateBody)
    (db : List Question) : Except ErrKind CreateResponse :=
  match body.question, body.answer, body.category, body.difficulty with
  | some q, some a, some c, some d =>
      if insertOk then
        let newQ : Question :=
          { id := freshId db, question := q, answer := a,
            category := c, difficulty := d }
        let db' := db ++ [newQ]
        let selection := orderById db'
        .ok { success := true, created := newQ.id,
              questions := paginate_questions page selection,
              total_questions := db'.length }
      else .error .unprocessable
  | _, _, _, _ => .error .unprocessable

/-- `isPre n h` decides whether `n` is an initial segment of `h`. -/
def isPre : List Char → List Char → Bool
  | [], _ => true
  | _ :: _, [] => false
  | a :: n, b :: h => a == b && isPre n h

/-- `hasSubstr n h` decides whether `n` occurs contiguously inside `h`. -/
def hasSubstr (n : List Char) : List Char → Bool
  | [] => n.isEmpty
  | b :: h => isPre n (b :: h) || hasSubstr n h

/-- The characters of a string folded to lower case. -/
def lowerChars (s : String) : List Char :=
  s.data.map Char.toLower

/-- The store's `Question.question.ilike('%term%')` filter: case-insensitive
containment of the term in the question text (the spec's store interface:
substring search, case-insensitive). -/
def containsCI (text term : String) : Bool :=
  hasSubstr (lowerChars term) (lowerChars text)

/-- The search term actually used by `search_questions`:
`body.get('searchTerm', None)` interpolated into the f-string
`f'%{search_term}%'`, so an absent key yields the literal text `None`
(Python's `str(None)`) inside the pattern. -/
def effectiveTerm : Option String → String
  | some t => t
  | none => "None"

/-- The matched set of `search_questions`:
`Question.query.filter(Question.question.ilike(f'%{search_term}%')).all()`. -/
def searchMatches (term : Option String) (db : List Question) : List Question :=
  db.filter (fun q => containsCI q.question (effectiveTerm term))

/-- `POST /questions/search` (`search_questions`): filter by case-insensitive
containment of the (interpolated) term, 404 when no record matches, else the
paginated matches together with the count of ALL questions. -/
def search_questions (page : Int) (term : Option String)
    (db : List Question) : Except ErrKind QuestionsResponse :=
  let questions := searchMatches term db
  let current_questions := paginate_questions page questions
  if questions.length = 0 then
    .error .notFound
  else
    .ok { success := true, questions := current_questions,
          total_questions := db.length }

/-- Success body of `GET /categories/<id>/questions`. -/
structure CategoryQuestionsResponse where
  success : Bool
  questions : List Question
  total_questions : Nat
  current_category : String
deriving DecidableEq, Repr

/-- `GET /categories/<id>/questions` (`get_questions_by_category`):
`Category.query.filter_by(id=id).one_or_none()` yields the one matching
category; `None` (and the raise on several matches) lands in the broad
`except` and maps to 404.  On success the questions of that category are
fetched (store order, no `order_by`), paginated, and counted — an empty
slice or a zero count is not an error here. -/
def get_questions_by_category (page : Int) (cats : List Category)
    (db : List Question) (id : Nat) :
    Except ErrKind CategoryQuestionsResponse :=
  match cats.filter (fun c => c.id = id) with
  | [category] =>
      let questions := db.filter (fun q => q.category = id)
      .ok { success := true,
            questions := paginate_questions page questions,
            total_questions := questions.length,
            current_category := category.type }
  | _ => .error .notFound

/-- Success body of `POST /quizzes`: `question` is `none` when the quiz is
exhausted. -/
structure QuizResponse where
  success : Bool
  question : Option Question
deriving DecidableEq, Repr

/-- The candidate set of `play_quiz`: all questions not previously asked when
`quiz_category['id'] == 0`, else the questions of that category not
previously asked. -/
def quizCandidates (catId : Nat) (previous_questions : List Nat)
    (db : List Question) : List Question :=
  if catId = 0 then
    db.filter (fun q => ¬ q.id ∈ previous_questions)
  else
    (db.filter (fun q => q.category = catId)).filter
      (fun q => ¬ q.id ∈ previous_questions)

/-- `POST /quizzes` (`play_quiz`), after the 400 guard on a missing
`quiz_category` or `previous_questions`: draw the candidate at position
`pick` (the value of `random.randrange(0, len(questions))`, so `pick` is
always below the candidate count) when candidates exist, else answer
`question: null` with success. -/
def play_quiz (pick : Nat) (catId : Nat) (previous_questions : List Nat)
    (db : List Question) : QuizResponse :=
  let questions := quizCandidates catId previous_questions db
  if questions.length > 0 then
    { success := true, question := (questions[pick]?).map Question.format }
  else
    { success := true, question := none }

/-- A question with id `i` and fixed texts, for concrete test stores. -/
def mkQ (i : Nat) : Question :=
  { id := i, question := "q", answer := "a", category := 1, difficulty := 1 }

/-- A store of `n` questions with ids `1..n` in ascending order. -/
def dbN (n : Nat) : List Question := (List.range n).map (fun i => mkQ (i + 1))

theorem length_pySlice_nonneg (xs : List α) (i : Int) (hi : 0 ≤ i) :
    ((pySlice xs i (i + 10)).length : Int) =
      min 10 (max 0 ((xs.length : Int) - i)) := by
  have h0 : ¬ i < 0 := by omega
  have h1 : ¬ i + 10 < 0 := by omega
  simp only [pySlice, pyIndex, if_neg h0, if_neg h1, List.length_drop,
    List.length_take]
  omega

theorem length_paginate (page : Int) (qs : List Question) (hp : 1 ≤ page) :
    ((paginate_questions page qs).length : Int) =
      min 10 (max 0 ((qs.length : Int) - (page - 1) * 10)) := by
  have h := length_pySlice_nonneg (qs.map Question.format) ((page - 1) * 10)
    (by omega)
  simpa [paginate_questions, QUESTIONS_PER_PAGE] using h

theorem length_orderById (db : List Question) :
    (orderById db).length = db.length :=
  (List.perm_insertionSort _ db).length_eq

theorem paginate_empty_of_page_past (page : Int) (qs : List Question)
    (hp : 1 ≤ page) (hpast : (qs.length : Int) ≤ (page - 1) * 10) :
    paginate_questions page qs = [] := by
  have h := length_paginate page qs hp
  have : (paginate_questions page qs).length = 0 := by omega
  exact List.length_eq_zero.mp this

/-- C1: `paginate_questions` returns exactly the Python slice
`[(page-1)*10 : (page-1)*10+10]` of the formatted sequence, and for every
valid page (`page ≥ 1`) the slice length is
`min 10 (max 0 (total - (page-1)*10))`, in particular at most 10. -/
theorem C1_paginate_contract (page : Int) (selection : List Question) :
    paginate_questions page selection =
      pySlice (selection.map Question.format)
        ((page - 1) * 10) ((page - 1) * 10 + 10) ∧
    (1 ≤ page →
      ((paginate_questions page selection).length : Int) =
        min 10 (max 0 ((selection.length : Int) - (page - 1) * 10)) ∧
      (paginate_questions page selection).length ≤ 10) := by
  refine ⟨rfl, fun hp => ⟨length_paginate page selection hp, ?_⟩⟩
  have h := length_paginate page selection hp
  omega

/-- Witness for C1 at page 2 over a store of 15 questions. -/
theorem C1_paginate_contract_witness :
    ((paginate_questions 2 (dbN 15)).length : Int) =
      min 10 (max 0 (((dbN 15).length : Int) - (2 - 1) * 10)) ∧
    (paginate_questions 2 (dbN 15)).length ≤ 10 :=
  (C1_paginate_contract 2 (dbN 15)).2 (by norm_num)

/-- C9: every error body is the fixed envelope
`{success: false, error: <status>, message: <text>}` with 400/"bad request",
422/"unprocessable" and 404/"resource not found", whichever handler raised
the failure. -/
theorem C9_error_envelope :
    errorResponse .badRequest =
      { success := false, error := 400, message := "bad request" } ∧
    errorResponse .unprocessable =
      { success := false, error := 422, message := "unprocessable" } ∧
    errorResponse .notFound =
      { success := false, error := 404, message := "resource not found" } ∧
    ∀ e : ErrKind, errorResponse e =
      { success := false, error := statusOf e, message := messageOf e } :=
  ⟨rfl, rfl, rfl, fun _ => rfl⟩

/-- C6: `GET /questions` fails with NotFound exactly when the paginated
slice is empty — also when questions exist but the page is past the data —
and otherwise succeeds with the slice and the count of all questions. -/
theorem C6_get_questions (page : Int) (db : List Question) :
    (get_questions page db = .error .notFound ↔
      paginate_questions page (orderById db) = []) ∧
    (∀ r, get_questions page db = .ok r →
      r.success = true ∧
      r.questions = paginate_questions page (orderById db) ∧
      r.total_questions = db.length) ∧
    (1 ≤ page → (db.length : Int) ≤ (page - 1) * 10 →
      get_questions page db = .error .notFound) := by
  refine ⟨⟨fun herr => ?_, fun hempty => ?_⟩, fun r hok => ?_, fun hp hpast => ?_⟩
  · by_contra hne
    have hlen : ¬ (paginate_questions page (orderById db)).length = 0 := by
      simpa [List.length_eq_zero] using hne
    simp [get_questions, hlen] at herr
  · simp [get_questions, hempty]
  · have hlen : ¬ (paginate_questions page (orderById db)).length = 0 := by
      intro h0
      simp [get_questions, h0] at hok
    simp [get_questions, hlen] at hok
    simp [← hok]
  · have hempty : paginate_questions page (orderById db) = [] :=
      paginate_empty_of_page_past page (orderById db) hp
        (by rw [length_orderById]; exact hpast)
    simp [get_questions, hempty]

/-- Witness for C6: page 9999 over a 3-question store yields NotFound. -/
theorem C6_get_questions_witness :
    get_questions 9999 (dbN 3) = .error .notFound :=
  (C6_get_questions 9999 (dbN 3)).2.2 (by norm_num) (by norm_num [dbN])

theorem length_filter_add_length_filter_neg {α} (p q : α → Bool)
    (hpq : ∀ a, q a = ! p a) (l : List α) :
    (l.filter p).length + (l.filter q).length = l.length := by
  induction l with
  | nil => rfl
  | cons a l ih =>
    rcases hb : p a with _ | _
    · have hq : q a = true := by rw [hpq, hb]; rfl
      simp [List.filter_cons, hb, hq]
      omega
    · have hq : q a = false := by rw [hpq, hb]; rfl
      simp [List.filter_cons, hb, hq]
      omega

/-- C7: `DELETE /questions/<id>` answers 422 (never 404) when the id does
not exist — and on any other lookup failure — and on success reports
`deleted = id` and the decremented total. -/
theorem C7_delete_question (page : Int) (db : List Question)
    (question_id : Nat) :
    (db.filter (fun q => q.id = question_id) = [] →
      delete_question page db question_id = .error .unprocessable) ∧
    (2 ≤ (db.filter (fun q => q.id = question_id)).length →
      delete_question page db question_id = .error .unprocessable) ∧
    (∀ q, db.filter (fun q' => q'.id = question_id) = [q] →
      delete_question page db question_id =
        .ok { success := true, deleted := question_id,
              questions := paginate_questions page
                (orderById (db.filter (fun q' => ¬ q'.id = question_id))),
              total_questions := db.length - 1 } ∧
      1 ≤ db.length) := by
  refine ⟨fun h0 => ?_, fun h2 => ?_, fun q hq => ?_⟩
  · simp [delete_question, h0]
  · rcases hm : db.filter (fun q => q.id = question_id) with _ | ⟨a, _ | ⟨b, tl⟩⟩
    · rw [hm] at h2; simp at h2
    · rw [hm] at h2; simp at h2
    · simp [delete_question, hm]
  · have hpart := length_filter_add_length_filter_neg
      (fun q' => decide (q'.id = question_id))
      (fun q' => decide (¬ q'.id = question_id))
      (fun _ => decide_not) db
    have h1 : (db.filter (fun q' => decide (q'.id = question_id))).length = 1 := by
      rw [hq]; rfl
    have hrem : (db.filter (fun q' => ¬ q'.id = question_id)).length =
        db.length - 1 := by omega
    refine ⟨?_, by omega⟩
    simp only [delete_question, hq]
    rw [hrem]

/-- Witness for C7: deleting id 2 from a 3-question store. -/
theorem C7_delete_question_witness :
    delete_question 1 (dbN 3) 2 =
      .ok { success := true, deleted := 2,
            questions := paginate_questions 1
              (orderById ((dbN 3).filter (fun q' => ¬ q'.id = 2))),
            total_questions := (dbN 3).length - 1 } ∧
    1 ≤ (dbN 3).length :=
  (C7_delete_question 1 (dbN 3) 2).2.2 (mkQ 2) (by decide)

/-- C8: `POST /questions` answers 422 exactly when one of the four keys
`question`, `answer`, `category`, `difficulty` is absent from the body or
the insert fails; with all four present and a successful insert, the
response carries `created` = the new question's id. -/
theorem C8_create_question (insertOk : Bool) (page : Int) (body : CreateBody)
    (db : List Question) :
    (create_question insertOk page body db = .error .unprocessable ↔
      (body.question = none ∨ body.answer = none ∨ body.category = none ∨
        body.difficulty = none ∨ insertOk = false)) ∧
    (∀ q a c d, body = ⟨some q, some a, some c, some d⟩ → insertOk = true →
      ∃ r, create_question insertOk page body db = .ok r ∧
        r.created = freshId db ∧ r.success = true ∧
        r.total_questions = db.length + 1) := by
  obtain ⟨bq, ba, bc, bd⟩ := body
  cases bq <;> cases ba <;> cases bc <;> cases bd <;> cases insertOk <;>
    simp [create_question]

/-- Witness for C8: all four keys present, insert succeeds. -/
theorem C8_create_question_witness :
    ∃ r, create_question true 1
        ⟨some "Q1", some "A1", some 1, some 3⟩ (dbN 2) = .ok r ∧
      r.created = freshId (dbN 2) ∧ r.success = true ∧
      r.total_questions = (dbN 2).length + 1 :=
  (C8_create_question true 1 ⟨some "Q1", some "A1", some 1, some 3⟩ (dbN 2)).2
    "Q1" "A1" 1 3 rfl rfl

/-- C10: `GET /categories/<id>/questions` with an existing category always
succeeds — with an empty `questions` array and the (possibly zero) matching
count when no question matches or the page is past the data. -/
theorem C10_questions_by_category (page : Int) (cats : List Category)
    (db : List Question) (id : Nat) (category : Category)
    (hfind : cats.filter (fun c => c.id = id) = [category]) :
    get_questions_by_category page cats db id =
      .ok { success := true,
            questions := paginate_questions page
              (db.filter (fun q => q.category = id)),
            total_questions := (db.filter (fun q => q.category = id)).length,
            current_category := category.type } ∧
    (db.filter (fun q => q.category = id) = [] →
      get_questions_by_category page cats db id =
        .ok { success := true, questions := [], total_questions := 0,
              current_category := category.type }) ∧
    (1 ≤ page →
      ((db.filter (fun q => q.category = id)).length : Int) ≤ (page - 1) * 10 →
      get_questions_by_category page cats db id =
        .ok { success := true, questions := [],
              total_questions := (db.filter (fun q => q.category = id)).length,
              current_category := category.type }) := by
  refine ⟨by simp [get_questions_by_category, hfind], fun hnone => ?_,
    fun hp hpast => ?_⟩
  · simp [get_questions_by_category, hfind, hnone, paginate_questions, pySlice]
  · have hempty := paginate_empty_of_page_past page
      (db.filter (fun q => q.category = id)) hp hpast
    simp [get_questions_by_category, hfind, hempty]

/-- Witness for C10: an existing category with zero questions, page 5. -/
theorem C10_questions_by_category_witness :
    get_questions_by_category 5 [{ id := 1, type := "Science" }] [] 1 =
      .ok { success := true, questions := [], total_questions := 0,
            current_category := "Science" } :=
  ((C10_questions_by_category 5 [{ id := 1, type := "Science" }] [] 1
    { id := 1, type := "Science" } (by decide)).2.1 (by decide))

theorem isPre_iff (n h : List Char) : isPre n h = true ↔ ∃ t, h = n ++ t := by
  induction n generalizing h with
  | nil => simp [isPre]
  | cons a n ih =>
    cases h with
    | nil => simp [isPre]
    | cons b h =>
      simp only [isPre, Bool.and_eq_true, beq_iff_eq, ih, List.cons_append]
      constructor
      · rintro ⟨rfl, t, rfl⟩
        exact ⟨t, rfl⟩
      · rintro ⟨t, ht⟩
        injection ht with h1 h2
        exact ⟨h1.symm, t, h2⟩

theorem hasSubstr_iff (n h : List Char) :
    hasSubstr n h = true ↔ ∃ l r, h = l ++ n ++ r := by
  induction h with
  | nil =>
    simp only [hasSubstr, List.isEmpty_iff]
    constructor
    · rintro rfl
      exact ⟨[], [], rfl⟩
    · rintro ⟨l, r, hl⟩
      rcases List.append_eq_nil.mp (List.append_eq_nil.mp hl.symm).1 with ⟨-, h2⟩
      exact h2
  | cons b h ih =>
    simp only [hasSubstr, Bool.or_eq_true, isPre_iff, ih]
    constructor
    · rintro (⟨t, ht⟩ | ⟨l, r, rfl⟩)
      · exact ⟨[], t, by simp [ht]⟩
      · exact ⟨b :: l, r, rfl⟩
    · rintro ⟨l, r, hl⟩
      cases l with
      | nil => exact Or.inl ⟨r, by simpa using hl⟩
      | cons x l =>
        refine Or.inr ⟨l, r, ?_⟩
        have : b :: h = x :: (l ++ n ++ r) := by simpa using hl
        injection this with h1 h2

/-- C4: the matched set of a present search term is exactly the questions
whose text contains the term as a case-insensitive substring, while the
success response's `total_questions` counts ALL questions, not the
matches. -/
theorem C4_search_questions (page : Int) (term : String)
    (db : List Question) :
    (∀ q, q ∈ searchMatches (some term) db ↔
      q ∈ db ∧ ∃ l r, lowerChars q.question = l ++ lowerChars term ++ r) ∧
    (∀ resp, search_questions page (some term) db = .ok resp →
      resp.total_questions = db.length ∧
      resp.questions = paginate_questions page (searchMatches (some term) db)) := by
  constructor
  · intro q
    simp only [searchMatches, effectiveTerm, containsCI, List.mem_filter,
      decide_eq_true_eq, hasSubstr_iff]
  · intro resp hok
    have hlen : ¬ (searchMatches (some term) db).length = 0 := by
      intro h0
      simp [search_questions, h0] at hok
    simp [search_questions, hlen] at hok
    simp [← hok]

/-- A concrete question whose text contains "Title", for the C4 witness. -/
def qTitle : Question :=
  { id := 1, question := "The Title here", answer := "a", category := 1,
    difficulty := 1 }

/-- Witness for C4: searching "tItLe" matches a question containing
"Title", and the response total counts the whole store. -/
theorem C4_search_questions_witness :
    (qTitle ∈ searchMatches (some "tItLe") [qTitle] ↔
      qTitle ∈ [qTitle] ∧
      ∃ l r, lowerChars qTitle.question = l ++ lowerChars "tItLe" ++ r) ∧
    ({ success := true, questions := [qTitle],
       total_questions := 1 } : QuestionsResponse).total_questions =
      ([qTitle] : List Question).length := by
  refine ⟨(C4_search_questions 1 "tItLe" [qTitle]).1 qTitle, ?_⟩
  exact ((C4_search_questions 1 "tItLe" [qTitle]).2
    { success := true, questions := [qTitle], total_questions := 1 }
    (by rfl)).1

/-- A concrete question whose text does not contain "none" in any case. -/
def qCapital : Question :=
  { id := 1, question := "What is the capital", answer := "a", category := 1,
    difficulty := 1 }

/-- Counterexample for C3: with no `searchTerm` key the claim predicts that
every stored question matches and the search succeeds, but the code
interpolates `None` into the pattern and a store whose single question does
not contain "none" yields zero matches and a 404. -/
theorem C3_counterexample :
    search_questions 1 none [qCapital] = .error .notFound ∧
    searchMatches none [qCapital] = [] ∧
    ([qCapital] : List Question) ≠ [] := by
  refine ⟨rfl, rfl, by decide⟩

/-- C3 amended: an absent `searchTerm` key is interpolated into the
f-string as the literal text `None`, so the matched set is the questions
containing "none" case-insensitively — not the whole store — and a store
with no such question yields NotFound. -/
theorem C3_amended_absent_term (page : Int) (db : List Question) :
    searchMatches none db =
      db.filter (fun q => containsCI q.question "None") ∧
    (∀ q, q ∈ searchMatches none db ↔
      q ∈ db ∧ ∃ l r, lowerChars q.question = l ++ "none".data ++ r) ∧
    (searchMatches none db = [] →
      search_questions page none db = .error .notFound) := by
  refine ⟨rfl, fun q => ?_, fun hempty => ?_⟩
  · have hnone : lowerChars "None" = "none".data := by decide
    simp only [searchMatches, effectiveTerm, containsCI, List.mem_filter,
      decide_eq_true_eq, hasSubstr_iff, hnone]
  · simp [search_questions, hempty]

/-- Witness for C3's amended statement on a one-question store without
"none" in its text. -/
theorem C3_amended_absent_term_witness :
    search_questions 2 none [qCapital] = .error .notFound :=
  (C3_amended_absent_term 2 [qCapital]).2.2 (by rfl)

theorem mem_quizCandidates {catId : Nat} {previous_questions : List Nat}
    {db : List Question} {q : Question}
    (hq : q ∈ quizCandidates catId previous_questions db) :
    q ∈ db ∧ ¬ q.id ∈ previous_questions ∧
      (¬ catId = 0 → q.category = catId) := by
  unfold quizCandidates at hq
  split at hq <;> rename_i hcat
  · rcases List.mem_filter.mp hq with ⟨hmem, hdec⟩
    exact ⟨hmem, by simpa using hdec, fun hc => absurd hcat hc⟩
  · rcases List.mem_filter.mp hq with ⟨hmem, hdec⟩
    rcases List.mem_filter.mp hmem with ⟨hmem', hdec'⟩
    exact ⟨hmem', by simpa using hdec, fun _ => by simpa using hdec'⟩

/-- C5: the quiz candidate set is the not-previously-asked questions of the
requested category (all questions when the sentinel id 0 is sent); a
non-empty candidate set yields a drawn member — never a previously asked id
— with each position below the candidate count hit by exactly the matching
candidate, and an empty candidate set yields `{success: true, question:
null}`. -/
theorem C5_play_quiz (pick catId : Nat) (previous_questions : List Nat)
    (db : List Question) :
    (quizCandidates catId previous_questions db =
      (if catId = 0 then db else
        db.filter (fun q => q.category = catId)).filter
        (fun q => ¬ q.id ∈ previous_questions)) ∧
    (∀ q, q ∈ quizCandidates catId previous_questions db →
      q ∈ db ∧ ¬ q.id ∈ previous_questions ∧
      (¬ catId = 0 → q.category = catId)) ∧
    (pick < (quizCandidates catId previous_questions db).length →
      ∃ q, q ∈ quizCandidates catId previous_questions db ∧
        ¬ q.id ∈ previous_questions ∧
        play_quiz pick catId previous_questions db =
          { success := true, question := some q }) ∧
    (quizCandidates catId previous_questions db = [] →
      play_quiz pick catId previous_questions db =
        { success := true, question := none }) ∧
    ((List.range (quizCandidates catId previous_questions db).length).map
        (fun i => play_quiz i catId previous_questions db) =
      (quizCandidates catId previous_questions db).map
        (fun q => { success := true, question := some q })) := by
  refine ⟨?_, fun q hq => mem_quizCandidates hq, fun hpick => ?_,
    fun hempty => ?_, ?_⟩
  · unfold quizCandidates
    split <;> rfl
  · refine ⟨(quizCandidates catId previous_questions db).get ⟨pick, hpick⟩,
      List.get_mem _ _ _, ?_, ?_⟩
    · exact (mem_quizCandidates (List.get_mem _ _ _)).2.1
    · unfold play_quiz
      rw [if_pos (by omega)]
      rw [List.getElem?_eq_getElem hpick]
      rfl
  · unfold play_quiz
    rw [hempty]
    rfl
  · apply List.ext_getElem
    · simp
    · intro i h1 h2
      have hi : i < (quizCandidates catId previous_questions db).length := by
        simpa using h2
      simp only [List.getElem_map, List.getElem_range]
      unfold play_quiz
      rw [if_pos (by omega)]
      rw [List.getElem?_eq_getElem hi]
      rfl

/-- Witness for C5: category 0 with previous ids 1 and 2 over a 3-question
store leaves the single candidate with id 3. -/
theorem C5_play_quiz_witness :
    ∃ q, q ∈ quizCandidates 0 [1, 2] (dbN 3) ∧ ¬ q.id ∈ [1, 2] ∧
      play_quiz 0 0 [1, 2] (dbN 3) =
        { success := true, question := some q } :=
  (C5_play_quiz 0 0 [1, 2] (dbN 3)).2.2.1 (by decide)

theorem paginate_first_page (qs : List Question) :
    paginate_questions 1 qs = (qs.map Question.format).take 10 := by
  simp only [paginate_questions, pySlice, pyIndex, QUESTIONS_PER_PAGE]
  norm_num
  omega

/-- Counterexample for C2: with 11 stored questions, `DELETE /questions/1`
carrying `?page=2` answers an empty `questions` array, not the first page
of the 10 remaining questions — the `page` query parameter is not
ignored. -/
theorem C2_counterexample :
    delete_question 2 (dbN 11) 1 =
      .ok { success := true, deleted := 1, questions := [],
            total_questions := 10 } ∧
    paginate_questions 1 (orderById ((dbN 11).filter (fun q => ¬ q.id = 1)))
      ≠ [] :=
  ⟨by rfl, by decide⟩

/-- C2 amended: after a successful delete (resp. create) the `questions`
array is the remaining (resp. all) questions ordered by id and paginated
with the request's `page` parameter; it is the first up-to-10 questions
exactly when that parameter is absent (default 1). -/
theorem C2_amended_response_page (page : Int) (db : List Question)
    (question_id : Nat) :
    (∀ r, delete_question page db question_id = .ok r →
      r.questions = paginate_questions page
        (orderById (db.filter (fun q => ¬ q.id = question_id)))) ∧
    (∀ insertOk body r, create_question insertOk page body db = .ok r →
      ∃ newQ : Question, r.questions =
        paginate_questions page (orderById (db ++ [newQ]))) ∧
    (∀ qs, paginate_questions 1 qs = (qs.map Question.format).take 10) := by
  refine ⟨fun r h => ?_, fun insertOk body r h => ?_, paginate_first_page⟩
  · unfold delete_question at h
    split at h
    · injection h with h'
      rw [← h']
    · exact Except.noConfusion h
  · obtain ⟨bq, ba, bc, bd⟩ := body
    cases bq <;> cases ba <;> cases bc <;> cases bd <;> cases insertOk <;>
      simp only [create_question, if_true, if_false, reduceCtorEq,
        Except.ok.injEq] at h
    exact ⟨_, by rw [← h]⟩

/-- Witness for C2's amended statement: deleting id 1 from a 2-question
store with the default page. -/
theorem C2_amended_response_page_witness :
    ({ success := true, deleted := 1, questions := [mkQ 2],
       total_questions := 1 } : DeleteResponse).questions =
      paginate_questions 1 (orderById ((dbN 2).filter (fun q => ¬ q.id = 1))) :=
  (C2_amended_response_page 1 (dbN 2) 1).1
    { success := true, deleted := 1, questions := [mkQ 2],
      total_questions := 1 } (by rfl)

end Trivia
